import Mathlib

/-!
Verification of the conversation-scoped usage-governance layer of the
Analytics-Agents backend (FastAPI + PydanticAI).

The definitions below are a shallow embedding of the Python source:

* `backend/app/agents/rate_limits.py` — `ConversationLimits`,
  `ConversationTracker` (`add_usage`, `check_limits`);
* `backend/app/config.py` — the fields the `Settings` instance declares
  (`admin_api_key` is not among them, so reading it raises
  `AttributeError`);
* `backend/app/auth.py` — `DEMO_LIMITS`, `check_ip_rate_limit`,
  `record_ip_query`, `get_current_user`, `get_usage_info_for_ip`;
* `backend/app/api/routes.py` — the `chat` endpoint's control flow;
* `backend/app/agents/orchestrator.py` — the `run_orchestrator` signature.

Python `int` is embedded as `Int`; `datetime` instants as `Int` (seconds),
with the 1-hour window length `3600`.  Exceptions become `Option`/`Except`
results.  The module-level dictionaries `_ip_usage` and
`_conversation_trackers` become association lists threaded explicitly
through the operations.  The LLM pipeline itself is an external
collaborator; the `chat` transition takes its outcome as a parameter.
-/

/-! ## rate_limits.py -/

/- Per-conversation ceilings (`class ConversationLimits`). -/
namespace ConversationLimits

/-- Max total LLM requests per conversation. -/
def MAX_REQUESTS : Int := 10

/-- Max total tokens per conversation. -/
def MAX_TOKENS : Int := 150000

/-- Max tool calls per conversation. -/
def MAX_TOOL_CALLS : Int := 15

end ConversationLimits

/-- The `usage_info : dict` argument of `add_usage`: three optional keys,
a missing key reads as `0` via `dict.get(key, 0)`. -/
structure UsageInfo where
  requests : Option Int := none
  tokens : Option Int := none
  tool_calls : Option Int := none
deriving DecidableEq, Repr

/-- Running totals of a conversation (`class ConversationTracker`). -/
structure ConversationTracker where
  total_requests : Int
  total_tokens : Int
  total_tool_calls : Int
deriving DecidableEq, Repr

/-- `ConversationTracker.__init__`: zero usage. -/
def ConversationTracker.init : ConversationTracker :=
  { total_requests := 0, total_tokens := 0, total_tool_calls := 0 }

/-- `ConversationTracker.add_usage`: add each field of the sample
(missing keys default to `0`). -/
def ConversationTracker.add_usage (t : ConversationTracker) (u : UsageInfo) :
    ConversationTracker :=
  { total_requests := t.total_requests + u.requests.getD 0,
    total_tokens := t.total_tokens + u.tokens.getD 0,
    total_tool_calls := t.total_tool_calls + u.tool_calls.getD 0 }

/-- Which ceiling a `RateLimitError` reports (read off the message built at
each `raise` site in `check_limits`). -/
inductive LimitKind where
  | requests
  | tokens
  | toolCalls
deriving DecidableEq, Repr

/-- `ConversationTracker.check_limits`: `some k` means the Python method
raises `RateLimitError` whose message names ceiling `k`; `none` means it
returns normally. -/
def ConversationTracker.check_limits (t : ConversationTracker) : Option LimitKind :=
  if t.total_requests ≥ ConversationLimits.MAX_REQUESTS then
    some .requests
  else if t.total_tokens ≥ ConversationLimits.MAX_TOKENS then
    some .tokens
  else if t.total_tool_calls ≥ ConversationLimits.MAX_TOOL_CALLS then
    some .toolCalls
  else
    none

/-- Folding a list of samples into a tracker (a sequence of
`add_usage` calls, in order). -/
def ConversationTracker.addAll (t : ConversationTracker) (l : List UsageInfo) :
    ConversationTracker :=
  l.foldl ConversationTracker.add_usage t

/-! ## Association lists

The module-level dictionaries (`_ip_usage` in `auth.py`,
`_conversation_trackers` in `routes.py`) are embedded as association
lists with Python-`dict` lookup/assignment semantics. -/

/-- `d[k]` lookup: `some v` when the key is present. -/
def alGet {α : Type} : List (String × α) → String → Option α
  | [], _ => none
  | (k, v) :: rest, key => if k = key then some v else alGet rest key

/-- `d[k] = v` assignment: overwrite in place, or append a new binding. -/
def alSet {α : Type} : List (String × α) → String → α → List (String × α)
  | [], key, v => [(key, v)]
  | (k, w) :: rest, key, v =>
      if k = key then (k, v) :: rest else (k, w) :: alSet rest key v

/-! ## config.py — the `Settings` instance

`Settings(BaseSettings)` with `extra = "ignore"` (pydantic-settings v2):
only the declared fields become attributes of the `settings` instance;
any undeclared environment key is dropped, and reading an undeclared
attribute raises `AttributeError`. -/

/-- The field names declared by `class Settings` in `config.py`. -/
def settingsDeclaredFields : List String :=
  ["app_name", "debug", "api_v1_prefix", "duckdb_path",
   "openai_api_key", "anthropic_api_key", "default_llm_model",
   "sql_agent_timeout_seconds", "orchestrator_timeout_seconds",
   "allowed_origins"]

/-- Whether `settings.<name>` resolves; reading an undeclared name
raises `AttributeError`. -/
def settingsHasAttr (name : String) : Bool :=
  settingsDeclaredFields.contains name

/-- The attribute access `settings.admin_api_key` performed inside the
f-string at `auth.py:116`: `some value` would be the declared field's
value, `none` records the `AttributeError` raise.  `config.py` declares
no `admin_api_key` field (see `settingsDeclaredFields`), so the access
fails. -/
def settings_admin_api_key : Option String := none

/-! ## auth.py -/

/-- `DEMO_LIMITS["queries_per_hour"]`. -/
def queries_per_hour : Nat := 6

/-- `DEMO_LIMITS["tokens_per_query"]`. -/
def tokens_per_query : Int := 20000

/-- One hour, the quota window length (`timedelta(hours=1)`), with
instants embedded as seconds. -/
def hourLength : Int := 3600

/-- Per-IP record stored in `_ip_usage`:
`{"queries": [...], "first_seen": now}`. -/
structure IpData where
  queries : List Int
  first_seen : Int
deriving DecidableEq, Repr

/-- The `_ip_usage` module dictionary. -/
abbrev IpUsageMap := List (String × IpData)

/-- The dictionary returned by a successful `check_ip_rate_limit`. -/
structure IpUsageInfo where
  queries_used : Nat
  queries_remaining : Nat
  tokens_per_query_limit : Int
deriving DecidableEq, Repr

/-- The pruning step of `check_ip_rate_limit`:
`[q for q in ip_data["queries"] if q > hour_ago]`. -/
def pruneQueries (now : Int) (qs : List Int) : List Int :=
  qs.filter (fun q => now - hourLength < q)

/-- The timestamps currently stored for an origin (empty when the origin
has no entry). -/
def originQueries (ip_address : String) (m : IpUsageMap) : List Int :=
  match alGet m ip_address with
  | some d => d.queries
  | none => []

/-- The origin's timestamps that lie strictly within the trailing 1-hour
window ending at `now` — the count `check_ip_rate_limit` compares against
the limit. -/
def inWindowQueries (now : Int) (ip_address : String) (m : IpUsageMap) : List Int :=
  pruneQueries now (originQueries ip_address m)

/-- `check_ip_rate_limit(ip_address)`: initialize the entry if absent,
prune timestamps older than one hour (writing the pruned list back), then
raise `DemoLimitError` (`Except.error`) when the in-window count is at or
above the hourly limit, else return the usage dictionary.  The updated
`_ip_usage` map is returned alongside. -/
def check_ip_rate_limit (now : Int) (ip_address : String) (m : IpUsageMap) :
    Except Unit IpUsageInfo × IpUsageMap :=
  let ip_data := (alGet m ip_address).getD { queries := [], first_seen := now }
  let pruned := pruneQueries now ip_data.queries
  let m' := alSet m ip_address { ip_data with queries := pruned }
  if pruned.length ≥ queries_per_hour then
    (Except.error (), m')
  else
    (Except.ok
      { queries_used := pruned.length,
        queries_remaining := queries_per_hour - pruned.length,
        tokens_per_query_limit := tokens_per_query }, m')

/-- `record_ip_query(ip_address)`: append the current instant to the
origin's timestamp list (initializing the entry if absent). -/
def record_ip_query (now : Int) (ip_address : String) (m : IpUsageMap) : IpUsageMap :=
  let ip_data := (alGet m ip_address).getD { queries := [], first_seen := now }
  alSet m ip_address { ip_data with queries := ip_data.queries ++ [now] }

/-- The `User` value built by `get_current_user`: `is_admin` plus, for demo
users, the client IP. -/
inductive UserTier where
  | admin
  | demo (ip_address : String)
deriving DecidableEq, Repr

/-- How `get_current_user` can fail: `HTTPException(401)` for a
non-matching credential, the `DemoLimitError` propagated from
`check_ip_rate_limit`, or the `AttributeError` escaping from the
`settings.admin_api_key` access when the field is undeclared. -/
inductive AuthFailure where
  | invalidKey
  | demoLimit
  | attributeError
deriving DecidableEq, Repr

/-- The demo branch of `get_current_user`: resolve the client IP
(`request.client.host`, or `"unknown"` when absent) and run the windowed
quota check. -/
def demoModeAuth (now : Int) (clientHost : Option String) (m : IpUsageMap) :
    Except AuthFailure UserTier × IpUsageMap :=
  let client_ip := clientHost.getD "unknown"
  match check_ip_rate_limit now client_ip m with
  | (Except.error _, m') => (Except.error .demoLimit, m')
  | (Except.ok _, m') => (Except.ok (.demo client_ip), m')

/-- `get_current_user(request, authorization)`: a truthy (present,
non-empty) `Authorization` header enters the admin branch, which first
evaluates `f"Bearer {settings.admin_api_key}"` — an access that raises
`AttributeError` when the field is undeclared (the `none` case; in the
program as shipped, `settings_admin_api_key = none`, so this branch
always fails that way) — and otherwise compares for exact equality,
yielding the admin user or a 401; an absent or empty header falls
through to IP-based demo mode.  The `admin_api_key` argument is the
outcome of the attribute access. -/
def get_current_user (admin_api_key : Option String) (now : Int)
    (authorization : Option String) (clientHost : Option String) (m : IpUsageMap) :
    Except AuthFailure UserTier × IpUsageMap :=
  match authorization with
  | some a =>
      if a = "" then demoModeAuth now clientHost m
      else
        match admin_api_key with
        | none => (Except.error .attributeError, m)
        | some key =>
            if a = "Bearer " ++ key then (Except.ok .admin, m)
            else (Except.error .invalidKey, m)
  | none => demoModeAuth now clientHost m

/-- The usage dictionary returned by `get_usage_info_for_ip` (the fields
that vary; `tier`, `queries_limit`, `tokens_per_query_limit` and
`reset_in_minutes` are constants). -/
structure UsageView where
  queries_used : Nat
  queries_remaining : Nat
deriving DecidableEq, Repr

/-- `get_usage_info_for_ip(ip_address)`: run the quota check, catching
`DemoLimitError` and reporting an exhausted view in that case.  The updated
`_ip_usage` map is returned alongside. -/
def get_usage_info_for_ip (now : Int) (ip_address : String) (m : IpUsageMap) :
    UsageView × IpUsageMap :=
  match check_ip_rate_limit now ip_address m with
  | (Except.ok u, m') => (⟨u.queries_used, u.queries_remaining⟩, m')
  | (Except.error _, m') => (⟨queries_per_hour, 0⟩, m')

/-! ## orchestrator.py — `run_orchestrator` signature -/

/-- Parameter names of `run_orchestrator` as defined in
`orchestrator.py` (`user_question`, `db_client`, `conversation_history`). -/
def runOrchestratorParams : List String :=
  ["user_question", "db_client", "conversation_history"]

/-- Keyword arguments of the `run_orchestrator(...)` call in the `chat`
route (`conversation_tracker=tracker`). -/
def chatCallKeywordArgs : List String :=
  ["conversation_tracker"]

/-- Python call binding: every keyword argument must name a parameter of
the callee, otherwise the call raises `TypeError` before the body runs. -/
def kwargsBind (params kwargs : List String) : Bool :=
  kwargs.all (fun k => params.contains k)

/-! ## routes.py — the `chat` endpoint

The LLM pipeline is an external collaborator (spec §6); the transition
takes the outcome of the single pipeline invocation as a parameter.  A
`TypeError` raised by the invocation itself is one of the `failure`
outcomes. -/

/-- Outcome of the awaited pipeline invocation inside `chat`'s `try:`
block: a normal return, or any raised exception. -/
inductive PipelineOutcome where
  | success
  | failure
deriving DecidableEq, Repr

/-- The HTTP-level result of one `chat` call.  `quotaRejected` is the
`DemoLimitError` raised while resolving the `get_current_user`
dependency; `serverError` is the generic 500 path. -/
inductive ChatResult where
  | ok (conversation_id : String)
  | unauthorized
  | quotaRejected
  | serverError
deriving DecidableEq, Repr

/-- The module-level mutable state the `chat` route touches: `_ip_usage`
(in `auth.py`) and `_conversation_trackers` (in `routes.py`). -/
structure GateState where
  ipUsage : IpUsageMap
  trackers : List (String × ConversationTracker)
deriving DecidableEq, Repr

/-- The `chat` endpoint as a state transition, faithful to `routes.py`:
resolve the user via `get_current_user` (quota check included, for demo);
for demo users get or create the conversation's tracker (admins pass
`None`); invoke the pipeline; on success record the query for demo users
with a truthy IP; any pipeline exception maps to the 500 handler.  An
exception escaping the dependency itself (the `AttributeError` case) is
unhandled by the route's `try:` and surfaces as a generic 500. -/
def chat (admin_api_key : Option String) (now : Int) (authorization : Option String)
    (clientHost : Option String) (conversation_id : String)
    (pipeline : Option ConversationTracker → PipelineOutcome)
    (s : GateState) : ChatResult × GateState :=
  match get_current_user admin_api_key now authorization clientHost s.ipUsage with
  | (Except.error .invalidKey, m') => (.unauthorized, { s with ipUsage := m' })
  | (Except.error .demoLimit, m') => (.quotaRejected, { s with ipUsage := m' })
  | (Except.error .attributeError, m') => (.serverError, { s with ipUsage := m' })
  | (Except.ok tier, m') =>
      let (tracker, trackers') :=
        match tier with
        | .admin => (none, s.trackers)
        | .demo _ =>
            match alGet s.trackers conversation_id with
            | some t => (some t, s.trackers)
            | none =>
                (some ConversationTracker.init,
                 alSet s.trackers conversation_id ConversationTracker.init)
      match pipeline tracker with
      | .failure => (.serverError, { ipUsage := m', trackers := trackers' })
      | .success =>
          match tier with
          | .admin => (.ok conversation_id, { ipUsage := m', trackers := trackers' })
          | .demo ip =>
              if ip = "" then
                (.ok conversation_id, { ipUsage := m', trackers := trackers' })
              else
                (.ok conversation_id,
                 { ipUsage := record_ip_query now ip m', trackers := trackers' })

/-! ## Concurrency model for the windowed quota

Requests execute on a single asyncio event loop; code between awaits is
atomic.  A chat request runs `check_ip_rate_limit` synchronously inside
its `get_current_user` dependency, then suspends awaiting the pipeline,
then (only on success) runs `record_ip_query` synchronously — no lock is
held across the await, so the checks and records of two overlapping
requests may interleave at that suspension point. -/

/-- Boolean view of the quota decision (`true` = admitted). -/
def admitted (e : Except Unit IpUsageInfo) : Bool :=
  match e with
  | .ok _ => true
  | .error _ => false

/-- Two overlapping anonymous requests from the same origin, in the
interleaving where both quota checks run before either record (both
pipeline awaits in flight together); each request records only if it was
admitted (and its pipeline succeeded). -/
def twoRequestsChecksFirst (now : Int) (ip_address : String) (m : IpUsageMap) :
    (Bool × Bool) × IpUsageMap :=
  let c1 := check_ip_rate_limit now ip_address m
  let c2 := check_ip_rate_limit now ip_address c1.2
  let m3 := if admitted c1.1 then record_ip_query now ip_address c2.2 else c2.2
  let m4 := if admitted c2.1 then record_ip_query now ip_address m3 else m3
  ((admitted c1.1, admitted c2.1), m4)

/-- The same two requests, fully serialized: the first request checks and
records before the second request checks. -/
def twoRequestsSerialized (now : Int) (ip_address : String) (m : IpUsageMap) :
    (Bool × Bool) × IpUsageMap :=
  let c1 := check_ip_rate_limit now ip_address m
  let m2 := if admitted c1.1 then record_ip_query now ip_address c1.2 else c1.2
  let c2 := check_ip_rate_limit now ip_address m2
  let m4 := if admitted c2.1 then record_ip_query now ip_address c2.2 else c2.2
  ((admitted c1.1, admitted c2.1), m4)

/-! ## Association-list lemmas -/

theorem alGet_alSet_self {α : Type} (m : List (String × α)) (k : String) (v : α) :
    alGet (alSet m k v) k = some v := by
  induction m with
  | nil => simp [alGet, alSet]
  | cons hd tl ih =>
      obtain ⟨k', w⟩ := hd
      by_cases h : k' = k <;> simp [alGet, alSet, h, ih]

theorem alGet_alSet_other {α : Type} (m : List (String × α)) (k k' : String) (v : α)
    (h : k' ≠ k) : alGet (alSet m k v) k' = alGet m k' := by
  induction m with
  | nil => simp [alGet, alSet, Ne.symm h]
  | cons hd tl ih =>
      obtain ⟨k₀, w⟩ := hd
      by_cases h0 : k₀ = k
      · subst h0
        simp [alGet, alSet, Ne.symm h]
      · by_cases h1 : k₀ = k' <;> simp [alGet, alSet, h0, h1, ih, h]

/-! ## Helper lemmas -/

theorem addAll_total_requests (t : ConversationTracker) (l : List UsageInfo) :
    (t.addAll l).total_requests =
      t.total_requests + (l.map (fun u => u.requests.getD 0)).sum := by
  induction l generalizing t with
  | nil => simp [ConversationTracker.addAll]
  | cons hd tl ih =>
      simp only [ConversationTracker.addAll, List.foldl_cons, List.map_cons, List.sum_cons]
      rw [show List.foldl ConversationTracker.add_usage (t.add_usage hd) tl
            = (t.add_usage hd).addAll tl from rfl, ih]
      simp [ConversationTracker.add_usage]
      ring

theorem addAll_total_tokens (t : ConversationTracker) (l : List UsageInfo) :
    (t.addAll l).total_tokens =
      t.total_tokens + (l.map (fun u => u.tokens.getD 0)).sum := by
  induction l generalizing t with
  | nil => simp [ConversationTracker.addAll]
  | cons hd tl ih =>
      simp only [ConversationTracker.addAll, List.foldl_cons, List.map_cons, List.sum_cons]
      rw [show List.foldl ConversationTracker.add_usage (t.add_usage hd) tl
            = (t.add_usage hd).addAll tl from rfl, ih]
      simp [ConversationTracker.add_usage]
      ring

theorem addAll_total_tool_calls (t : ConversationTracker) (l : List UsageInfo) :
    (t.addAll l).total_tool_calls =
      t.total_tool_calls + (l.map (fun u => u.tool_calls.getD 0)).sum := by
  induction l generalizing t with
  | nil => simp [ConversationTracker.addAll]
  | cons hd tl ih =>
      simp only [ConversationTracker.addAll, List.foldl_cons, List.map_cons, List.sum_cons]
      rw [show List.foldl ConversationTracker.add_usage (t.add_usage hd) tl
            = (t.add_usage hd).addAll tl from rfl, ih]
      simp [ConversationTracker.add_usage]
      ring

theorem tracker_ext (a b : ConversationTracker)
    (h1 : a.total_requests = b.total_requests)
    (h2 : a.total_tokens = b.total_tokens)
    (h3 : a.total_tool_calls = b.total_tool_calls) : a = b := by
  cases a; cases b; simp_all

theorem getD_queries_eq_originQueries (now : Int) (ip : String) (m : IpUsageMap) :
    ((alGet m ip).getD { queries := [], first_seen := now }).queries
      = originQueries ip m := by
  cases h : alGet m ip <;> simp [originQueries, h]

/-- The result component of the quota check, in closed form. -/
theorem check_result_eq (now : Int) (ip : String) (m : IpUsageMap) :
    (check_ip_rate_limit now ip m).1 =
      (if (inWindowQueries now ip m).length ≥ queries_per_hour then
        Except.error ()
      else
        Except.ok
          { queries_used := (inWindowQueries now ip m).length,
            queries_remaining := queries_per_hour - (inWindowQueries now ip m).length,
            tokens_per_query_limit := tokens_per_query }) := by
  simp only [check_ip_rate_limit, inWindowQueries]
  rw [getD_queries_eq_originQueries]
  split_ifs <;> rfl

/-- The state component of the quota check, in closed form: the origin's
entry is rewritten with the pruned list (created if absent), in both the
admitting and the rejecting branch. -/
theorem check_state_eq (now : Int) (ip : String) (m : IpUsageMap) :
    (check_ip_rate_limit now ip m).2 =
      alSet m ip
        { queries := inWindowQueries now ip m,
          first_seen := ((alGet m ip).getD
            { queries := [], first_seen := now }).first_seen } := by
  simp only [check_ip_rate_limit, inWindowQueries]
  rw [getD_queries_eq_originQueries]
  split_ifs <;> rfl

theorem pruneQueries_idem (now : Int) (qs : List Int) :
    pruneQueries now (pruneQueries now qs) = pruneQueries now qs := by
  apply List.filter_eq_self.mpr
  intro q hq
  exact (List.mem_filter.mp hq).2

/-! ## Claim theorems -/

/-- C1: `check_limits` raises iff some cumulative total is at or above its
ceiling (strict ≥); it evaluates requests, then tokens, then tool_calls,
reporting only the first ceiling breached; a tracker with exactly
`MAX_REQUESTS` accumulated requests raises the requests-kind failure while
`MAX_REQUESTS - 1` does not raise. -/
theorem check_limits_spec (t : ConversationTracker) :
    (t.check_limits.isSome ↔
      (ConversationLimits.MAX_REQUESTS ≤ t.total_requests ∨
       ConversationLimits.MAX_TOKENS ≤ t.total_tokens ∨
       ConversationLimits.MAX_TOOL_CALLS ≤ t.total_tool_calls)) ∧
    (t.check_limits = some .requests ↔
      ConversationLimits.MAX_REQUESTS ≤ t.total_requests) ∧
    (t.check_limits = some .tokens ↔
      (t.total_requests < ConversationLimits.MAX_REQUESTS ∧
       ConversationLimits.MAX_TOKENS ≤ t.total_tokens)) ∧
    (t.check_limits = some .toolCalls ↔
      (t.total_requests < ConversationLimits.MAX_REQUESTS ∧
       t.total_tokens < ConversationLimits.MAX_TOKENS ∧
       ConversationLimits.MAX_TOOL_CALLS ≤ t.total_tool_calls)) ∧
    (ConversationTracker.init.add_usage
        { requests := some ConversationLimits.MAX_REQUESTS }).check_limits
      = some .requests ∧
    (ConversationTracker.init.add_usage
        { requests := some (ConversationLimits.MAX_REQUESTS - 1) }).check_limits
      = none := by
  refine ⟨?_, ?_, ?_, ?_, by decide, by decide⟩ <;>
    · unfold ConversationTracker.check_limits
      split_ifs <;> simp_all

/-- C3: for every finite sequence of `add_usage` calls on a fresh
`ConversationTracker`, the resulting totals equal the field-wise sum of
all samples (a missing key contributing zero), and the result is the same
for any reordering of the calls. -/
theorem addAll_fieldwise_sum_perm_invariant (l l' : List UsageInfo) (hp : l.Perm l') :
    (ConversationTracker.init.addAll l).total_requests
        = (l.map (fun u => u.requests.getD 0)).sum ∧
    (ConversationTracker.init.addAll l).total_tokens
        = (l.map (fun u => u.tokens.getD 0)).sum ∧
    (ConversationTracker.init.addAll l).total_tool_calls
        = (l.map (fun u => u.tool_calls.getD 0)).sum ∧
    ConversationTracker.init.addAll l = ConversationTracker.init.addAll l' := by
  refine ⟨?_, ?_, ?_, ?_⟩
  · rw [addAll_total_requests]; simp [ConversationTracker.init]
  · rw [addAll_total_tokens]; simp [ConversationTracker.init]
  · rw [addAll_total_tool_calls]; simp [ConversationTracker.init]
  · refine tracker_ext _ _ ?_ ?_ ?_
    · rw [addAll_total_requests, addAll_total_requests]
      exact congrArg _ ((hp.map _).sum_eq)
    · rw [addAll_total_tokens, addAll_total_tokens]
      exact congrArg _ ((hp.map _).sum_eq)
    · rw [addAll_total_tool_calls, addAll_total_tool_calls]
      exact congrArg _ ((hp.map _).sum_eq)

/-- Witness for C3 at a concrete pair of permuted sample lists. -/
theorem addAll_fieldwise_sum_perm_invariant_witness :
    ([({ requests := some 1 } : UsageInfo), { tokens := some 5 }].Perm
        [({ tokens := some 5 } : UsageInfo), { requests := some 1 }]) ∧
    (ConversationTracker.init.addAll
        [({ requests := some 1 } : UsageInfo), { tokens := some 5 }]).total_tokens
      = ([({ requests := some 1 } : UsageInfo), { tokens := some 5 }].map
          (fun u => u.tokens.getD 0)).sum :=
  have hp : ([({ requests := some 1 } : UsageInfo), { tokens := some 5 }].Perm
      [({ tokens := some 5 } : UsageInfo), { requests := some 1 }]) :=
    List.Perm.swap _ _ _
  ⟨hp, (addAll_fieldwise_sum_perm_invariant _ _ hp).2.1⟩

/-- C8 counterexample: after a fresh tracker accumulates three samples of
`{requests: 2, tokens: 20000, tool_calls: 1}`, the totals are
`6 / 60000 / 3`, all strictly below the configured ceilings
`10 / 150000 / 15`, so `check_limits` raises nothing — in particular it
does not raise the tokens-kind failure the claim asserts. -/
theorem three_samples_check_raises_nothing :
    (ConversationTracker.init.addAll
        (List.replicate 3
          { requests := some 2, tokens := some 20000, tool_calls := some 1 })).check_limits
      = none ∧
    (ConversationTracker.init.addAll
        (List.replicate 3
          { requests := some 2, tokens := some 20000, tool_calls := some 1 }))
      = { total_requests := 6, total_tokens := 60000, total_tool_calls := 3 } := by
  constructor <;> decide

/-- C8 amended: with samples of `{requests: 2, tokens: 20000,
tool_calls: 1}` the check after the third accumulation passes (totals
`6 / 60000 / 3` are below every ceiling); the first ceiling reached is
`MAX_REQUESTS` after the fifth accumulation (10 ≥ 10), at which point
`check_limits` raises the requests-kind failure; the fourth accumulation
still passes. -/
theorem five_samples_first_failure_is_requests :
    (ConversationTracker.init.addAll
        (List.replicate 3
          { requests := some 2, tokens := some 20000, tool_calls := some 1 })).check_limits
      = none ∧
    (ConversationTracker.init.addAll
        (List.replicate 4
          { requests := some 2, tokens := some 20000, tool_calls := some 1 })).check_limits
      = none ∧
    (ConversationTracker.init.addAll
        (List.replicate 5
          { requests := some 2, tokens := some 20000, tool_calls := some 1 })).check_limits
      = some .requests ∧
    (ConversationTracker.init.addAll
        (List.replicate 5
          { requests := some 2, tokens := some 20000, tool_calls := some 1 })).total_requests
      = ConversationLimits.MAX_REQUESTS := by
  refine ⟨by decide, by decide, by decide, by decide⟩

/-- C2: the `chat` route invokes `run_orchestrator` with the keyword
argument `conversation_tracker`, but `run_orchestrator` as defined in
`orchestrator.py` has no such parameter, so the invocation raises
`TypeError` before the pipeline body runs and the tracker is never
received by the pipeline. -/
theorem chat_call_does_not_bind_run_orchestrator :
    kwargsBind runOrchestratorParams chatCallKeywordArgs = false := by decide

/-- C4: the windowed quota check prunes the origin's timestamps to those
strictly within the trailing 1-hour window (a timestamp exactly one hour
old is dropped), rejects iff the pruned count is at or above the limit of
6 and otherwise admits; an origin with 6 recorded in-window queries is
rejected on the next check, and once the window has elapsed past every
recorded timestamp the same origin is admitted again. -/
theorem check_ip_rate_limit_windowed_quota (now : Int) (ip : String) (m : IpUsageMap) :
    ((now - hourLength) ∉ inWindowQueries now ip m) ∧
    (∀ q, q ∈ inWindowQueries now ip m ↔
        (q ∈ originQueries ip m ∧ now - hourLength < q)) ∧
    ((check_ip_rate_limit now ip m).1 = Except.error () ↔
        queries_per_hour ≤ (inWindowQueries now ip m).length) ∧
    ((inWindowQueries now ip m).length < queries_per_hour →
        (check_ip_rate_limit now ip m).1 =
          Except.ok
            { queries_used := (inWindowQueries now ip m).length,
              queries_remaining := queries_per_hour - (inWindowQueries now ip m).length,
              tokens_per_query_limit := tokens_per_query }) ∧
    ((originQueries ip m).length = queries_per_hour →
        (∀ q ∈ originQueries ip m, now - hourLength < q) →
        (check_ip_rate_limit now ip m).1 = Except.error ()) ∧
    (∀ later, (∀ q ∈ originQueries ip m, q ≤ later - hourLength) →
        (check_ip_rate_limit later ip m).1 =
          Except.ok
            { queries_used := 0,
              queries_remaining := queries_per_hour,
              tokens_per_query_limit := tokens_per_query }) := by
  refine ⟨?_, ?_, ?_, ?_, ?_, ?_⟩
  · intro hmem
    have := (List.mem_filter.mp hmem).2
    simp at this
  · intro q
    simp [inWindowQueries, pruneQueries, List.mem_filter]
  · rw [check_result_eq]
    split_ifs with h
    · simpa using h
    · simpa using h
  · intro hlt
    rw [check_result_eq]
    split_ifs with h
    · omega
    · rfl
  · intro hlen hall
    have hkeep : inWindowQueries now ip m = originQueries ip m :=
      List.filter_eq_self.mpr (by
        intro q hq
        simpa using hall q hq)
    rw [check_result_eq]
    split_ifs with h
    · rfl
    · rw [hkeep, hlen] at h
      omega
  · intro later hall
    have hnil : inWindowQueries later ip m = [] := by
      apply List.filter_eq_nil_iff.mpr
      intro q hq
      have := hall q hq
      simp
      omega
    rw [check_result_eq, hnil]
    simp [queries_per_hour]

/-- Witness for C4: the origin `"1.2.3.4"` with six in-window timestamps
at instant 60 is rejected; at instant 3700, one hour past every
timestamp, it is admitted again with a full window. -/
theorem check_ip_rate_limit_windowed_quota_witness :
    (check_ip_rate_limit 60 "1.2.3.4"
        [("1.2.3.4", ⟨[10, 20, 30, 40, 50, 60], 10⟩)]).1 = Except.error () ∧
    (check_ip_rate_limit 3700 "1.2.3.4"
        [("1.2.3.4", ⟨[10, 20, 30, 40, 50, 60], 10⟩)]).1 =
      Except.ok
        { queries_used := 0,
          queries_remaining := queries_per_hour,
          tokens_per_query_limit := tokens_per_query } :=
  ⟨(check_ip_rate_limit_windowed_quota 60 "1.2.3.4"
      [("1.2.3.4", ⟨[10, 20, 30, 40, 50, 60], 10⟩)]).2.2.2.2.1
        (by decide) (by decide),
   (check_ip_rate_limit_windowed_quota 60 "1.2.3.4"
      [("1.2.3.4", ⟨[10, 20, 30, 40, 50, 60], 10⟩)]).2.2.2.2.2
        3700 (by decide)⟩

/-- Looking up the key just written. -/
theorem originQueries_alSet_self (ip : String) (d : IpData) (m : IpUsageMap) :
    originQueries ip (alSet m ip d) = d.queries := by
  simp [originQueries, alGet_alSet_self]

/-- The quota check leaves the in-window list unchanged: pruning is
idempotent. -/
theorem inWindow_after_check (now : Int) (ip : String) (m : IpUsageMap) :
    inWindowQueries now ip (check_ip_rate_limit now ip m).2
      = inWindowQueries now ip m := by
  rw [check_state_eq]
  unfold inWindowQueries
  rw [originQueries_alSet_self]
  exact pruneQueries_idem now _

/-- The result of `demoModeAuth`, in closed form. -/
theorem demoModeAuth_fst (now : Int) (clientHost : Option String) (m : IpUsageMap) :
    (demoModeAuth now clientHost m).1 =
      (if admitted (check_ip_rate_limit now (clientHost.getD "unknown") m).1 then
        Except.ok (.demo (clientHost.getD "unknown"))
      else
        Except.error .demoLimit) := by
  simp only [demoModeAuth]
  rcases hc : check_ip_rate_limit now (clientHost.getD "unknown") m with ⟨r, m2⟩
  cases r <;> simp [admitted]

/-- The state of `demoModeAuth` is the state of the quota check. -/
theorem demoModeAuth_snd (now : Int) (clientHost : Option String) (m : IpUsageMap) :
    (demoModeAuth now clientHost m).2
      = (check_ip_rate_limit now (clientHost.getD "unknown") m).2 := by
  simp only [demoModeAuth]
  rcases hc : check_ip_rate_limit now (clientHost.getD "unknown") m with ⟨r, m2⟩
  cases r <;> rfl

/-- C5: `Settings` in `config.py` declares no `admin_api_key` field, so
the access at `auth.py:116` raises `AttributeError` for every request
presenting a non-empty credential — the trusted classification and the
401 rejection the claim describes are both unreachable, and no request
is ever classified as trusted. -/
theorem credentialed_requests_hit_attribute_error :
    settingsHasAttr "admin_api_key" = false ∧
    (∀ (now : Int) (a : String) (clientHost : Option String) (m : IpUsageMap),
      a ≠ "" →
      get_current_user settings_admin_api_key now (some a) clientHost m
        = (Except.error .attributeError, m)) ∧
    (∀ (now : Int) (authorization clientHost : Option String) (m : IpUsageMap),
      (get_current_user settings_admin_api_key now authorization clientHost m).1
        ≠ Except.ok .admin) := by
  refine ⟨by decide, ?_, ?_⟩
  · intro now a clientHost m hne
    simp [get_current_user, settings_admin_api_key, hne]
  · intro now authorization clientHost m
    cases authorization with
    | none =>
        simp only [get_current_user]
        rw [demoModeAuth_fst]
        split_ifs <;> simp
    | some a =>
        by_cases h0 : a = ""
        · subst h0
          have hgc : get_current_user settings_admin_api_key now (some "")
              clientHost m = demoModeAuth now clientHost m := by
            simp [get_current_user]
          rw [hgc, demoModeAuth_fst]
          split_ifs <;> simp
        · simp [get_current_user, settings_admin_api_key, h0]

/-- Witness for C5: the concrete credential `"Bearer secret"` dies with
the `AttributeError` (500) instead of being accepted or 401-rejected. -/
theorem credentialed_requests_hit_attribute_error_witness :
    get_current_user settings_admin_api_key 0 (some "Bearer secret")
        (some "9.9.9.9") []
      = (Except.error .attributeError, []) :=
  credentialed_requests_hit_attribute_error.2.1 0 "Bearer secret"
    (some "9.9.9.9") [] (by decide)

/-- C7: because `settings.admin_api_key` does not exist, no request can
be classified as trusted; every request presenting a non-empty credential
dies with `AttributeError` inside the `get_current_user` dependency and
the route returns a generic 500 with the shared state untouched and the
pipeline never invoked (the result is the same for every pipeline).  The
trusted tier the claim describes is unreachable. -/
theorem chat_credentialed_request_is_500 :
    settingsHasAttr "admin_api_key" = false ∧
    (∀ (now : Int) (a : String) (clientHost : Option String)
        (conversation_id : String)
        (pipeline : Option ConversationTracker → PipelineOutcome) (s : GateState),
      a ≠ "" →
      chat settings_admin_api_key now (some a) clientHost conversation_id
          pipeline s
        = (ChatResult.serverError, s)) := by
  refine ⟨by decide, ?_⟩
  intro now a clientHost conversation_id pipeline s hne
  simp [chat, get_current_user, settings_admin_api_key, hne]

/-- Witness for C7: a concrete credentialed chat request returns the 500
result and leaves the state unchanged, for a pipeline that would have
succeeded. -/
theorem chat_credentialed_request_is_500_witness :
    chat settings_admin_api_key 7 (some "Bearer secret") (some "9.9.9.9") "c"
        (fun _ => PipelineOutcome.success) { ipUsage := [], trackers := [] }
      = (ChatResult.serverError, { ipUsage := [], trackers := [] }) :=
  chat_credentialed_request_is_500.2 7 "Bearer secret" (some "9.9.9.9") "c"
    (fun _ => PipelineOutcome.success) { ipUsage := [], trackers := [] }
    (by decide)

/-- `demoModeAuth` under the limit: the demo user is admitted and the
quota state is the pruned one. -/
theorem demoModeAuth_admitted (now : Int) (clientHost : Option String) (m : IpUsageMap)
    (h : (inWindowQueries now (clientHost.getD "unknown") m).length < queries_per_hour) :
    demoModeAuth now clientHost m
      = (Except.ok (.demo (clientHost.getD "unknown")),
         (check_ip_rate_limit now (clientHost.getD "unknown") m).2) := by
  have h1 : (check_ip_rate_limit now (clientHost.getD "unknown") m).1
      = Except.ok
          { queries_used := (inWindowQueries now (clientHost.getD "unknown") m).length,
            queries_remaining :=
              queries_per_hour -
                (inWindowQueries now (clientHost.getD "unknown") m).length,
            tokens_per_query_limit := tokens_per_query } := by
    rw [check_result_eq]
    exact if_neg (by omega)
  simp only [demoModeAuth]
  rcases hc : check_ip_rate_limit now (clientHost.getD "unknown") m with ⟨r, m2⟩
  rw [hc] at h1
  simp only [Prod.fst] at h1
  subst h1
  rfl

/-- `demoModeAuth` at or above the limit: the demo user is rejected with
`DemoLimitError`; the quota state is still the pruned one. -/
theorem demoModeAuth_rejected (now : Int) (clientHost : Option String) (m : IpUsageMap)
    (h : queries_per_hour ≤ (inWindowQueries now (clientHost.getD "unknown") m).length) :
    demoModeAuth now clientHost m
      = (Except.error .demoLimit,
         (check_ip_rate_limit now (clientHost.getD "unknown") m).2) := by
  have h1 : (check_ip_rate_limit now (clientHost.getD "unknown") m).1
      = Except.error () := by
    rw [check_result_eq]
    exact if_pos (by omega)
  simp only [demoModeAuth]
  rcases hc : check_ip_rate_limit now (clientHost.getD "unknown") m with ⟨r, m2⟩
  rw [hc] at h1
  simp only [Prod.fst] at h1
  subst h1
  rfl

/-- Recording right after a check appends exactly one timestamp to the
pruned in-window list. -/
theorem originQueries_record_after_check (now : Int) (ip : String) (m : IpUsageMap) :
    originQueries ip (record_ip_query now ip (check_ip_rate_limit now ip m).2)
      = inWindowQueries now ip m ++ [now] := by
  rw [check_state_eq]
  simp only [record_ip_query, alGet_alSet_self, Option.getD_some]
  rw [originQueries_alSet_self]

/-- The usage view of `get_usage_info_for_ip`, in closed form. -/
theorem usage_view_eq (now : Int) (ip : String) (m : IpUsageMap) :
    (get_usage_info_for_ip now ip m).1 =
      (if (inWindowQueries now ip m).length ≥ queries_per_hour then
        ({ queries_used := queries_per_hour, queries_remaining := 0 } : UsageView)
      else
        { queries_used := (inWindowQueries now ip m).length,
          queries_remaining := queries_per_hour - (inWindowQueries now ip m).length }) := by
  simp only [get_usage_info_for_ip]
  have h1 : (check_ip_rate_limit now ip m).1 =
      (if (inWindowQueries now ip m).length ≥ queries_per_hour then
        Except.error ()
      else
        Except.ok
          { queries_used := (inWindowQueries now ip m).length,
            queries_remaining := queries_per_hour - (inWindowQueries now ip m).length,
            tokens_per_query_limit := tokens_per_query }) := check_result_eq now ip m
  rcases hc : check_ip_rate_limit now ip m with ⟨r, m2⟩
  rw [hc] at h1
  simp only [Prod.fst] at h1
  split_ifs at h1 ⊢ with h
  · subst h1
    rfl
  · subst h1
    rfl

/-- The usage view is invariant under a preceding check at the same
instant: pruning does not change the in-window count. -/
theorem usage_view_after_check (now : Int) (ip : String) (m : IpUsageMap) :
    (get_usage_info_for_ip now ip (check_ip_rate_limit now ip m).2).1
      = (get_usage_info_for_ip now ip m).1 := by
  rw [usage_view_eq, usage_view_eq, inWindow_after_check]

/-- C6: on the anonymous path, one timestamp is appended to the origin's
(pruned) in-window list exactly when the pipeline invocation succeeds;
when the pipeline fails nothing is appended — the stored list is only
pruned and the usage view at the same instant is unchanged; when the
quota rejects, the pipeline is never invoked and nothing is appended. -/
theorem chat_demo_records_iff_pipeline_success (admin_api_key : Option String) (now : Int)
    (clientHost : Option String) (conversation_id : String) (s : GateState)
    (po : PipelineOutcome)
    (hip : clientHost.getD "unknown" ≠ "") :
    ((inWindowQueries now (clientHost.getD "unknown") s.ipUsage).length
        < queries_per_hour →
      po = PipelineOutcome.success →
      originQueries (clientHost.getD "unknown")
          (chat admin_api_key now none clientHost conversation_id
            (fun _ => po) s).2.ipUsage
        = inWindowQueries now (clientHost.getD "unknown") s.ipUsage ++ [now]) ∧
    (po = PipelineOutcome.failure →
      originQueries (clientHost.getD "unknown")
          (chat admin_api_key now none clientHost conversation_id
            (fun _ => po) s).2.ipUsage
        = inWindowQueries now (clientHost.getD "unknown") s.ipUsage ∧
      (get_usage_info_for_ip now (clientHost.getD "unknown")
          (chat admin_api_key now none clientHost conversation_id
            (fun _ => po) s).2.ipUsage).1
        = (get_usage_info_for_ip now (clientHost.getD "unknown") s.ipUsage).1) ∧
    (queries_per_hour
        ≤ (inWindowQueries now (clientHost.getD "unknown") s.ipUsage).length →
      (chat admin_api_key now none clientHost conversation_id
          (fun _ => po) s).1 = ChatResult.quotaRejected ∧
      originQueries (clientHost.getD "unknown")
          (chat admin_api_key now none clientHost conversation_id
            (fun _ => po) s).2.ipUsage
        = inWindowQueries now (clientHost.getD "unknown") s.ipUsage) := by
  refine ⟨?_, ?_, ?_⟩
  · intro hadm hpo
    subst hpo
    have hda := demoModeAuth_admitted now clientHost s.ipUsage hadm
    simp only [chat, get_current_user, hda, hip, if_neg]
    rcases ht : alGet s.trackers conversation_id with _ | t <;>
      simp only [ht] <;>
      · simp [hip]
        exact originQueries_record_after_check now (clientHost.getD "unknown") s.ipUsage
  · intro hpo
    subst hpo
    by_cases hadm :
        (inWindowQueries now (clientHost.getD "unknown") s.ipUsage).length
          < queries_per_hour
    · have hda := demoModeAuth_admitted now clientHost s.ipUsage hadm
      simp only [chat, get_current_user, hda]
      try simp
      refine ⟨?_, ?_⟩
      · rw [check_state_eq, originQueries_alSet_self]
      · exact usage_view_after_check now (clientHost.getD "unknown") s.ipUsage
    · have hda := demoModeAuth_rejected now clientHost s.ipUsage (by omega)
      simp only [chat, get_current_user, hda]
      try simp
      refine ⟨?_, ?_⟩
      · rw [check_state_eq, originQueries_alSet_self]
      · exact usage_view_after_check now (clientHost.getD "unknown") s.ipUsage
  · intro hrej
    have hda := demoModeAuth_rejected now clientHost s.ipUsage hrej
    simp only [chat, get_current_user, hda]
    try simp
    rw [check_state_eq, originQueries_alSet_self]

/-- Witness for C6: a fresh origin's first successful chat appends one
timestamp to its (empty) in-window list. -/
theorem chat_demo_records_iff_pipeline_success_witness :
    originQueries "1.2.3.4"
        (chat settings_admin_api_key 0 none (some "1.2.3.4") "c"
          (fun _ => PipelineOutcome.success)
          { ipUsage := [], trackers := [] }).2.ipUsage
      = inWindowQueries 0 "1.2.3.4" [] ++ [0] :=
  (chat_demo_records_iff_pipeline_success settings_admin_api_key 0
      (some "1.2.3.4") "c" { ipUsage := [], trackers := [] }
      PipelineOutcome.success (by decide)).1 (by decide) rfl

/-- C9 counterexample: from a state whose origin has exactly one
remaining slot (5 of 6 in-window timestamps), the interleaving in which
both requests run their quota checks before either records admits BOTH
requests — not one admission and one rejection. -/
theorem quota_race_admits_both :
    (inWindowQueries 100 "1.2.3.4"
        [("1.2.3.4", ⟨[100, 100, 100, 100, 100], 100⟩)]).length
      = queries_per_hour - 1 ∧
    (twoRequestsChecksFirst 100 "1.2.3.4"
        [("1.2.3.4", ⟨[100, 100, 100, 100, 100], 100⟩)]).1 = (true, true) := by
  constructor <;> rfl

/-- C9 amended: the quota's check-then-record sequence is not atomic —
no lock is held across the awaited pipeline call.  From any one-slot-left
state, the interleaving with both checks before either record admits both
requests; one admission and one rejection is obtained only when the first
request's record precedes the second request's check. -/
theorem quota_race_requires_serialization (now : Int) (ip : String) (m : IpUsageMap)
    (h : (inWindowQueries now ip m).length = queries_per_hour - 1) :
    (twoRequestsChecksFirst now ip m).1 = (true, true) ∧
    (twoRequestsSerialized now ip m).1 = (true, false) := by
  have hq : queries_per_hour = 6 := rfl
  have h1 : admitted (check_ip_rate_limit now ip m).1 = true := by
    rw [check_result_eq, if_neg (by omega)]
    rfl
  have h2win := inWindow_after_check now ip m
  have h2 : admitted (check_ip_rate_limit now ip
      (check_ip_rate_limit now ip m).2).1 = true := by
    rw [check_result_eq, if_neg (by rw [h2win]; omega)]
    rfl
  have hser := originQueries_record_after_check now ip m
  have hkeepnow : pruneQueries now (inWindowQueries now ip m ++ [now])
      = inWindowQueries now ip m ++ [now] := by
    unfold pruneQueries
    rw [List.filter_append]
    have hfix : List.filter (fun q => decide (now - hourLength < q))
        (inWindowQueries now ip m) = inWindowQueries now ip m :=
      pruneQueries_idem now (originQueries ip m)
    rw [hfix]
    have hin : now - hourLength < now := by unfold hourLength; omega
    simp [hin]
  have h3win : inWindowQueries now ip
      (record_ip_query now ip (check_ip_rate_limit now ip m).2)
      = inWindowQueries now ip m ++ [now] := by
    unfold inWindowQueries
    rw [hser]
    exact hkeepnow
  have h3 : admitted (check_ip_rate_limit now ip
      (record_ip_query now ip (check_ip_rate_limit now ip m).2)).1 = false := by
    rw [check_result_eq, if_pos (by rw [h3win]; simp; omega)]
    rfl
  constructor
  · simp only [twoRequestsChecksFirst]
    rw [h1, h2]
  · simp only [twoRequestsSerialized, h1]
    simp only [if_true]
    rw [h3]

/-- Witness for C9's amended statement at the concrete one-slot-left
state: both-checks-first admits both; serialized admits one and rejects
the other. -/
theorem quota_race_requires_serialization_witness :
    (twoRequestsChecksFirst 200 "9.9.9.9"
        [("9.9.9.9", ⟨[200, 200, 200, 200, 200], 200⟩)]).1 = (true, true) ∧
    (twoRequestsSerialized 200 "9.9.9.9"
        [("9.9.9.9", ⟨[200, 200, 200, 200, 200], 200⟩)]).1 = (true, false) :=
  quota_race_requires_serialization 200 "9.9.9.9"
    [("9.9.9.9", ⟨[200, 200, 200, 200, 200], 200⟩)] (by decide)

/-- C10: checking the windowed quota never consumes it — the in-window
list is a sublist of the stored list (only expired timestamps are
removed, so the count cannot increase), the state after a check (and
after the GET /usage path, which shares it) stores exactly the pruned
list, entries of other origins are untouched, and only `record_ip_query`
appends a timestamp. -/
theorem quota_check_is_readonly (now : Int) (ip : String) (m : IpUsageMap) :
    ((inWindowQueries now ip m).Sublist (originQueries ip m)) ∧
    ((inWindowQueries now ip m).length ≤ (originQueries ip m).length) ∧
    (originQueries ip (check_ip_rate_limit now ip m).2 = inWindowQueries now ip m) ∧
    ((get_usage_info_for_ip now ip m).2 = (check_ip_rate_limit now ip m).2) ∧
    (∀ other, other ≠ ip →
        alGet (check_ip_rate_limit now ip m).2 other = alGet m other) ∧
    (originQueries ip (record_ip_query now ip m) = originQueries ip m ++ [now]) := by
  refine ⟨List.filter_sublist _, (List.filter_sublist _).length_le, ?_, ?_, ?_, ?_⟩
  · rw [check_state_eq, originQueries_alSet_self]
  · simp only [get_usage_info_for_ip]
    rcases hc : check_ip_rate_limit now ip m with ⟨r, m2⟩
    cases r <;> rfl
  · intro other hne
    rw [check_state_eq]
    exact alGet_alSet_other m ip other _ hne
  · simp only [record_ip_query]
    rw [originQueries_alSet_self]
    rw [getD_queries_eq_originQueries]

/-- Witness for C10: a check for one origin leaves another origin's
(absent) entry absent, and the in-window count is bounded by the stored
count. -/
theorem quota_check_is_readonly_witness :
    alGet (check_ip_rate_limit 0 "1.2.3.4" []).2 "5.6.7.8" = alGet [] "5.6.7.8" ∧
    (inWindowQueries 0 "1.2.3.4" []).length ≤ (originQueries "1.2.3.4" []).length :=
  ⟨(quota_check_is_readonly 0 "1.2.3.4" []).2.2.2.2.1 "5.6.7.8" (by decide),
   (quota_check_is_readonly 0 "1.2.3.4" []).2.1⟩
